import Mathlib

/-!
Shallow embedding of `crates/transaction-pool/src/pool/state.rs`.

The Rust file defines a 6-bit `TxState` bitflags value, a `SubPool`
enum (`Queued = 0, Pending, BaseFee`, `repr(u8)`, with derived `Ord`),
the method `SubPool::is_promoted` (`self > &other` under the derived
order), and `From<TxState> for SubPool`, which classifies a flag value
by comparing it against the two derived masks.

Flag values are modelled as natural numbers below 64 (`Fin 64` in the
theorems); the bitflags comparisons in the source compare the raw `u8`
bits, which is the numeric order on those naturals.
-/

namespace TxState

/-- Bit 5: the transaction's `feeCap` meets the chain's minimum requirement. -/
def ENOUGH_FEE_CAP_PROTOCOL : Nat := 0b100000

/-- Bit 4: no nonce gaps for the sender. -/
def NO_NONCE_GAPS : Nat := 0b010000

/-- Bit 3: the sender's balance covers the maximum cost. -/
def ENOUGH_BALANCE : Nat := 0b001000

/-- Bit 2: gas limit below the block's gas limit. -/
def NOT_TOO_MUCH_GAS : Nat := 0b000100

/-- Bit 1: `feeCap` meets the pending block's requirement. -/
def ENOUGH_FEE_CAP_BLOCK : Nat := 0b000010

/-- Bit 0: the transaction is local. -/
def IS_LOCAL : Nat := 0b000001

/-- Union of the four base bits, as in the source:
`ENOUGH_FEE_CAP_PROTOCOL | NO_NONCE_GAPS | ENOUGH_BALANCE | NOT_TOO_MUCH_GAS`. -/
def BASE_FEE_POOL_BITS : Nat :=
  ENOUGH_FEE_CAP_PROTOCOL ||| NO_NONCE_GAPS ||| ENOUGH_BALANCE ||| NOT_TOO_MUCH_GAS

/-- `ENOUGH_FEE_CAP_PROTOCOL` alone, as in the source. -/
def QUEUED_POOL_BITS : Nat := ENOUGH_FEE_CAP_PROTOCOL

end TxState

/-- The `SubPool` enum, constructors in the source's declaration order. -/
inductive SubPool where
  | Queued
  | Pending
  | BaseFee
deriving DecidableEq, Repr, Fintype

/-- The `repr(u8)` discriminant: `Queued = 0` and the rest follow the
declaration order, so `Pending = 1`, `BaseFee = 2`. The derived
`Ord` on the Rust enum compares these discriminants. -/
def SubPool.discriminant : SubPool → Nat
  | SubPool.Queued => 0
  | SubPool.Pending => 1
  | SubPool.BaseFee => 2

/-- `SubPool::is_promoted`: `self > &other` under the derived order,
i.e. comparison of the discriminants. -/
def SubPool.is_promoted (self other : SubPool) : Bool :=
  decide (SubPool.discriminant other < SubPool.discriminant self)

/-- The priority ranking stated by the spec:
`rank(Queued) < rank(BaseFeePool) < rank(Pending)`. This is the
spec's intended comparator, written down separately so it can be
compared with the code's derived order. -/
def SubPool.spec_rank : SubPool → Nat
  | SubPool.Queued => 0
  | SubPool.BaseFee => 1
  | SubPool.Pending => 2

/-- `From<TxState> for SubPool`: the three-step threshold test on the
raw flag value. -/
def classify (v : Nat) : SubPool :=
  if TxState.BASE_FEE_POOL_BITS < v then SubPool.Pending
  else if v < TxState.QUEUED_POOL_BITS then SubPool.Queued
  else SubPool.BaseFee

/-- Claim C1: the spec requires the comparator to realise the ranking
`Queued < BaseFeePool < Pending`, under which the move from `BaseFee`
to `Pending` is a promotion. The code's derived `Ord` follows the
declaration order `Queued = 0, Pending = 1, BaseFee = 2`, so
`is_promoted Pending BaseFee` evaluates to `false` and the reverse
(semantically a demotion) to `true`: the code contradicts the spec's
stated intent. -/
theorem c1_code_behavior :
    SubPool.spec_rank SubPool.BaseFee < SubPool.spec_rank SubPool.Pending ∧
    SubPool.is_promoted SubPool.Pending SubPool.BaseFee = false ∧
    SubPool.is_promoted SubPool.BaseFee SubPool.Pending = true := by
  decide

/-- Claim C2: over all 64 flag combinations, `classify` returns
`Pending` exactly when the four base bits (protocol fee floor, no
nonce gaps, sufficient balance, gas within block limit) are all set
and at least one of the block fee-cap bit or the local bit is set. -/
theorem c2_pending_iff_base_set :
    ∀ v : Fin 64,
      (classify v.val = SubPool.Pending ↔
        (Nat.testBit v.val 5 ∧ Nat.testBit v.val 4 ∧ Nat.testBit v.val 3 ∧
          Nat.testBit v.val 2 ∧ (Nat.testBit v.val 1 ∨ Nat.testBit v.val 0))) := by
  decide

/-- Claim C3: whenever the protocol fee-floor bit (bit 5) is unset,
`classify` returns `Queued`, regardless of the other five bits. -/
theorem c3_protocol_floor_veto :
    ∀ v : Fin 64, Nat.testBit v.val 5 = false → classify v.val = SubPool.Queued := by
  decide

/-- Witness for C3 at the concrete flag value 17 (bits 4 and 0 set,
bit 5 unset). -/
theorem c3_protocol_floor_veto_witness : classify 17 = SubPool.Queued :=
  c3_protocol_floor_veto ⟨17, by decide⟩ (by decide)

/-- Claim C4: the four base bits together with `IS_LOCAL` alone, with
the block fee-cap bit unset, form the value 61 and classify as
`Pending`: a local transaction bypasses the block fee-cap gate. -/
theorem c4_local_bypass :
    TxState.ENOUGH_FEE_CAP_PROTOCOL ||| TxState.NO_NONCE_GAPS |||
        TxState.ENOUGH_BALANCE ||| TxState.NOT_TOO_MUCH_GAS ||| TxState.IS_LOCAL = 61 ∧
      classify 61 = SubPool.Pending := by
  decide

/-- Claim C5: setting any additional bit on a combination already
classified `Pending` keeps it `Pending`; and clearing the protocol
fee-floor bit (bit 5) from any combination forces `Queued`. -/
theorem c5_monotone_flag_addition :
    (∀ v : Fin 64, ∀ i : Fin 6,
        classify v.val = SubPool.Pending →
          classify (v.val ||| (1 <<< i.val)) = SubPool.Pending) ∧
      (∀ v : Fin 64, classify (v.val &&& 31) = SubPool.Queued) := by
  decide

/-- Witness for C5: adding bit 1 to the `Pending` value 61, and
clearing bit 5 from 61. -/
theorem c5_monotone_flag_addition_witness :
    classify (61 ||| (1 <<< 1)) = SubPool.Pending ∧ classify (61 &&& 31) = SubPool.Queued :=
  ⟨c5_monotone_flag_addition.1 ⟨61, by decide⟩ ⟨1, by decide⟩ (by decide),
    c5_monotone_flag_addition.2 ⟨61, by decide⟩⟩

/-- Claim C6: for distinct sub-pools exactly one direction of
`is_promoted` holds, and no sub-pool is promoted relative to itself. -/
theorem c6_promotion_symmetry :
    ∀ a b : SubPool,
      (a ≠ b →
        ((SubPool.is_promoted a b = true ∧ SubPool.is_promoted b a = false) ∨
          (SubPool.is_promoted a b = false ∧ SubPool.is_promoted b a = true))) ∧
        SubPool.is_promoted a a = false := by
  decide

/-- Witness for C6 at the distinct pair `(Queued, Pending)`. -/
theorem c6_promotion_symmetry_witness :
    ((SubPool.is_promoted SubPool.Queued SubPool.Pending = true ∧
        SubPool.is_promoted SubPool.Pending SubPool.Queued = false) ∨
      (SubPool.is_promoted SubPool.Queued SubPool.Pending = false ∧
        SubPool.is_promoted SubPool.Pending SubPool.Queued = true)) :=
  (c6_promotion_symmetry SubPool.Queued SubPool.Pending).1 (by decide)

/-- Claim C7: the value 32 (protocol fee-floor bit only) and the value
60 (all four base bits, block fee-cap and local unset) both classify
as `BaseFee`. -/
theorem c7_base_fee_residual :
    classify 32 = SubPool.BaseFee ∧ classify 60 = SubPool.BaseFee := by
  decide

/-- Claim C8: `classify` is total over the 64 flag combinations and
always returns one of the three sub-pools. -/
theorem c8_totality :
    ∀ v : Fin 64,
      classify v.val = SubPool.Queued ∨ classify v.val = SubPool.BaseFee ∨
        classify v.val = SubPool.Pending := by
  decide

/-- Claim C9: the derived masks have the integer values 60 and 32, and
`classify` is the three-step threshold algorithm on the flag value:
`Pending` when `v > 60`, else `Queued` when `v < 32`, else `BaseFee`. -/
theorem c9_masks_and_thresholds :
    TxState.BASE_FEE_POOL_BITS = 60 ∧ TxState.QUEUED_POOL_BITS = 32 ∧
      ∀ v : Fin 64,
        classify v.val =
          if 60 < v.val then SubPool.Pending
          else if v.val < 32 then SubPool.Queued
          else SubPool.BaseFee := by
  refine ⟨by decide, by decide, by decide⟩

/-- Claim C10: classification is monotone in the flag value under the
priority order `Queued < BaseFeePool < Pending`. -/
theorem c10_monotone_in_value :
    ∀ v1 v2 : Fin 64, v1 ≤ v2 →
      SubPool.spec_rank (classify v1.val) ≤ SubPool.spec_rank (classify v2.val) := by
  decide

/-- Witness for C10 at the pair `(31, 61)`. -/
theorem c10_monotone_in_value_witness :
    SubPool.spec_rank (classify 31) ≤ SubPool.spec_rank (classify 61) :=
  c10_monotone_in_value ⟨31, by decide⟩ ⟨61, by decide⟩ (by decide)
